import Mathlib

/-!
Verification of the coordination logic of `agente.py`, a command-line
news-sentiment agent.  The external collaborators (the DuckDuckGo search
client `DDGS`, the TextBlob polarity model, and the LangChain agent
executor) are modelled as oracle parameters; the repository's own code
(result formatting, fallback strategy, sentiment classification and
formatting, the token-monitor callback, and the interactive loop) is
embedded faithfully.
-/

namespace Agente

/-- A search result as returned by the DDGS client: a dictionary of
optional string fields.  `agente.py` reads the keys `title`, `body`,
`snippet`, `source` and `date` via `dict.get` with defaults. -/
structure Item where
  title : Option String
  body : Option String
  snippet : Option String
  source : Option String
  date : Option String
deriving DecidableEq, Repr

/-- The two DDGS endpoints used by `search_news_english`:
`ddgs.news(...)` and `ddgs.text(...)`. -/
inductive Endpoint
  | news
  | text
deriving DecidableEq, Repr

/-- The keyword arguments passed to a DDGS endpoint call. -/
structure Query where
  keywords : String
  region : String
  max_results : Nat
deriving DecidableEq, Repr

/-- The search capability oracle: each endpoint call either returns a
result list or raises an exception (modelled as `Except` carrying the
exception's string rendering `str(e)`). -/
def DDGSOracle := Endpoint → Query → Except String (List Item)

/-- One formatted line of `search_news_english`:
`f"- [{date}] {title} ({source}): {body}\n"` with the `dict.get`
defaults of lines 51-55 of `agente.py`. -/
def format_item (item : Item) : String :=
  let title := item.title.getD "No title"
  let body := item.body.getD (item.snippet.getD "")
  let source := item.source.getD "Unknown Source"
  let date := item.date.getD ""
  "- [" ++ date ++ "] " ++ title ++ " (" ++ source ++ "): " ++ body ++ "\n"

/-- The accumulation loop `formatted_results += ...` of lines 49-55. -/
def format_results (results : List Item) : String :=
  results.foldl (fun acc item => acc ++ format_item item) ""

/-- The primary query of line 41: `ddgs.news(keywords=query,
region="us-en", max_results=5)`. -/
def primaryQuery (query : String) : Query :=
  ⟨query, "us-en", 5⟩

/-- The fallback query of line 44: `ddgs.text(keywords=f"{query} news",
region="us-en", max_results=5)`. -/
def fallbackQuery (query : String) : Query :=
  ⟨query ++ " news", "us-en", 5⟩

/-- `search_news_english` (lines 33-60 of `agente.py`), instrumented
with the trace of DDGS calls it issues.  The function always returns a
string: every oracle exception is caught by the `except Exception`
handler of line 59 and converted to an error string. -/
def search_news_english (ddgs : DDGSOracle) (query : String) :
    String × List (Endpoint × Query) :=
  let q1 := primaryQuery query
  match ddgs .news q1 with
  | .error e => ("Critical error in search tool: " ++ e, [(.news, q1)])
  | .ok results =>
    if results.isEmpty then
      let q2 := fallbackQuery query
      match ddgs .text q2 with
      | .error e =>
          ("Critical error in search tool: " ++ e, [(.news, q1), (.text, q2)])
      | .ok results2 =>
        if results2.isEmpty then
          ("No news found.", [(.news, q1), (.text, q2)])
        else
          (format_results results2, [(.news, q1), (.text, q2)])
    else
      (format_results results, [(.news, q1)])

/-- The string returned by the tool (first component of the
instrumented run). -/
def search_news_output (ddgs : DDGSOracle) (query : String) : String :=
  (search_news_english ddgs query).1

/-- The trace of DDGS calls issued during one tool run. -/
def search_news_trace (ddgs : DDGSOracle) (query : String) :
    List (Endpoint × Query) :=
  (search_news_english ddgs query).2

/-- The three-way sentiment label derived by `analyze_sentiment`
(lines 71-76 of `agente.py`). -/
inductive SentimentLabel
  | POSITIVE
  | NEGATIVE
  | NEUTRAL
deriving DecidableEq, Repr

open SentimentLabel

/-- The classification of lines 71-76: `polarity > 0.1` is POSITIVE,
`polarity < -0.1` is NEGATIVE, anything else NEUTRAL.  Polarity is
modelled as a rational number. -/
def classify (polarity : ℚ) : SentimentLabel :=
  if polarity > 1/10 then POSITIVE
  else if polarity < -(1/10) then NEGATIVE
  else NEUTRAL

/-- Round a rational to the nearest integer, ties to even: the rounding
used by Python's `"{:.2f}"` format specifier. -/
def roundHalfEven (x : ℚ) : ℤ :=
  let f := ⌊x⌋
  let frac := x - f
  if frac < 1/2 then f
  else if frac > 1/2 then f + 1
  else if f % 2 = 0 then f else f + 1

/-- Render the polarity with Python's `f"{polarity:.2f}"`: round to the
nearest hundredth (ties to even) and print with exactly two decimal
digits, keeping the minus sign of a negative value that rounds to
zero. -/
def fmt2 (p : ℚ) : String :=
  let n := roundHalfEven (p * 100)
  let sign := if n < 0 ∨ (n = 0 ∧ p < 0) then "-" else ""
  let m := n.natAbs
  let ip := m / 100
  let fp := m % 100
  sign ++ toString ip ++ "." ++ (if fp < 10 then "0" else "") ++ toString fp

/-- The trailing sentence of each branch of `analyze_sentiment`. -/
def sentimentTail : SentimentLabel → String
  | POSITIVE => "Content is generally positive."
  | NEGATIVE => "Content is generally negative."
  | NEUTRAL => "Content is neutral."

/-- Render a `SentimentLabel` the way the source writes it. -/
def SentimentLabel.render : SentimentLabel → String
  | POSITIVE => "POSITIVE"
  | NEGATIVE => "NEGATIVE"
  | NEUTRAL => "NEUTRAL"

/-- `analyze_sentiment` (lines 62-76 of `agente.py`).  TextBlob is an
external capability, so the function is modelled on the polarity value
it produces for the input text. -/
def analyze_sentiment (polarity : ℚ) : String :=
  if polarity > 1/10 then
    "POLARITY SCORE: " ++ fmt2 polarity ++
      " (POSITIVE). Content is generally positive."
  else if polarity < -(1/10) then
    "POLARITY SCORE: " ++ fmt2 polarity ++
      " (NEGATIVE). Content is generally negative."
  else
    "POLARITY SCORE: " ++ fmt2 polarity ++ " (NEUTRAL). Content is neutral."

/-- The `usage_metadata` dictionary navigated by the token monitor:
only the `total_tokens` key is read (line 25), via `dict.get` with
default 0. -/
structure UsageMetadata where
  total_tokens : Option Nat
deriving DecidableEq, Repr

/-- A generation's `generation_info` dictionary.  `hasOtherKeys`
records whether the dictionary holds keys besides `usage_metadata`,
which matters only for Python truthiness of the dictionary. -/
structure GenInfo where
  usage_metadata : Option UsageMetadata
  hasOtherKeys : Bool
deriving DecidableEq, Repr

/-- Python truthiness of the `generation_info` dictionary: an empty
dictionary is falsy. -/
def GenInfo.isTruthy (g : GenInfo) : Bool :=
  g.usage_metadata.isSome || g.hasOtherKeys

/-- A single generation object: its `generation_info` attribute may be
`None` (falsy). -/
structure Generation where
  generation_info : Option GenInfo
deriving DecidableEq, Repr

/-- The response object passed to `on_llm_end`: `response.generations`
is a list of lists of generations. -/
structure LLMResult where
  generations : List (List Generation)
deriving DecidableEq, Repr

/-- `TokenMonitorCallback.on_llm_end` (lines 19-29 of `agente.py`),
modelled as the token total it prints, or `none` when nothing is
printed.  Every failure path of the Python code — the `IndexError` of
`response.generations[0]` on an empty list, a falsy `generations`
list, a falsy `generation_info` — ends in the bare `except: pass`
or in the guard, hence prints nothing; the function is total, so no
exception ever escapes. -/
def on_llm_end (response : LLMResult) : Option Nat :=
  match response.generations.head? with
  | none => none
  | some gens =>
    match gens.head? with
    | none => none
    | some g =>
      match g.generation_info with
      | none => none
      | some info =>
        if info.isTruthy then
          some (((info.usage_metadata.getD ⟨none⟩).total_tokens).getD 0)
        else none

/-- The token total actually present in the response's nested
generation metadata, when there is one: the value the spec calls
"found". -/
def found_total (response : LLMResult) : Option Nat :=
  response.generations.head?.bind fun gens =>
    gens.head?.bind fun g =>
      g.generation_info.bind fun info =>
        info.usage_metadata.bind fun usage =>
          usage.total_tokens

/-- ASCII lower-casing of one character, as Python's `str.lower()`
acts on the ASCII range. -/
def asciiLower (c : Char) : Char :=
  if 65 ≤ c.toNat ∧ c.toNat ≤ 90 then Char.ofNat (c.toNat + 32) else c

/-- `str.lower()` of line 115, character by character. -/
def strLower (s : String) : String := ⟨s.data.map asciiLower⟩

/-- The two reserved exit tokens of line 115: `['sair', 'x']`. -/
def exit_tokens : List String := ["sair", "x"]

/-- The composite instruction built on lines 119-124, embedding the raw
topic. -/
def prompt_completo (user_input : String) : String :=
  "Please, search for the latest news about '" ++ user_input ++
  "'. Use the 'Search_News' tool first. Then, YOU MUST use the 'Analyze_Sentiment' tool on the content found to get the polarity. Finally, answer me in PORTUGUESE (PT-BR) summarizing the news and stating the sentiment found."

/-- What one iteration of the main loop does with an operator input. -/
inductive LoopAction
  | exit
  | invoke (prompt : String)
deriving DecidableEq, Repr

/-- The dispatch of lines 115-127: exit on a (lower-cased) exit token,
otherwise build `prompt_completo` and invoke the agent executor. -/
def loop_step (user_input : String) : LoopAction :=
  if strLower user_input ∈ exit_tokens then .exit
  else .invoke (prompt_completo user_input)

/-- The agent executor oracle: `invoke` either returns (its result is
discarded by the loop) or raises an exception with message `e`. -/
def ExecutorOracle := String → Except String Unit

/-- What the loop prints in reaction to each turn. -/
inductive TurnEvent
  | errorReported (msg : String)
  | answered
deriving DecidableEq, Repr

/-- The interactive loop of lines 113-129, run on a finite stream of
operator inputs: each turn either breaks on an exit token, or invokes
the executor inside `try`/`except`, printing `f"Error: {e}"` on an
exception and continuing with the next input either way. -/
def main_loop (invoke : ExecutorOracle) : List String → List TurnEvent
  | [] => []
  | input :: rest =>
    if strLower input ∈ exit_tokens then []
    else
      match invoke (prompt_completo input) with
      | .error e => .errorReported ("Error: " ++ e) :: main_loop invoke rest
      | .ok _ => .answered :: main_loop invoke rest

/-- The concatenation of the formatted lines, written as explicit
structural recursion over the result list: line `i` of the output is
the render of result `i`, in provider order. -/
def format_results_spec : List Item → String
  | [] => ""
  | item :: rest => format_item item ++ format_results_spec rest

/-- None of the four rendered field values of an item contains a
newline character, so the item's render is a single line. -/
def Item.newlineFree (item : Item) : Prop :=
  Char.ofNat 10 ∉ (item.title.getD "No title").data ∧
  Char.ofNat 10 ∉ (item.body.getD (item.snippet.getD "")).data ∧
  Char.ofNat 10 ∉ (item.source.getD "Unknown Source").data ∧
  Char.ofNat 10 ∉ (item.date.getD "").data

instance (item : Item) : Decidable item.newlineFree := by
  unfold Item.newlineFree
  infer_instance

/-- The sentiment-output shape as the spec words it, for comparison
with `analyze_sentiment`:
`"<LABEL> (Score: <polarity, 2 decimals>)"`. -/
def spec_sentiment_format (label : SentimentLabel) (p : ℚ) : String :=
  label.render ++ " (Score: " ++ fmt2 p ++ ")"

/-! Theorems. -/

/-- C1: for every polarity value p computed by the sentiment scorer,
the derived label is POSITIVE iff p > 0.1, NEGATIVE iff p < -0.1, and
NEUTRAL otherwise; the boundary values p = 0.1 and p = -0.1 are
classified NEUTRAL. -/
theorem classify_thresholds (p : ℚ) :
    (classify p = .POSITIVE ↔ p > 1/10) ∧
    (classify p = .NEGATIVE ↔ p < -(1/10)) ∧
    (classify p = .NEUTRAL ↔ ¬(p > 1/10) ∧ ¬(p < -(1/10))) ∧
    classify (1/10) = .NEUTRAL ∧ classify (-(1/10)) = .NEUTRAL := by
  refine ⟨?_, ?_, ?_, ?_, ?_⟩
  · unfold classify
    split_ifs with h1 h2 <;> simp <;> linarith
  · unfold classify
    split_ifs with h1 h2 <;> simp <;> linarith
  · unfold classify
    split_ifs with h1 h2 <;> simp <;>
      first | linarith | (intro h; linarith) | (constructor <;> linarith)
  · unfold classify
    rw [if_neg (by norm_num), if_neg (by norm_num)]
  · unfold classify
    rw [if_neg (by norm_num), if_neg (by norm_num)]

/-- C6 counterexample: at polarity 0 the scorer returns
"POLARITY SCORE: 0.00 (NEUTRAL). Content is neutral.", which is not
the spec's claimed shape "<LABEL> (Score: <polarity, 2 decimals>)",
i.e. "NEUTRAL (Score: 0.00)". -/
theorem analyze_sentiment_format_counterexample :
    analyze_sentiment 0 = "POLARITY SCORE: 0.00 (NEUTRAL). Content is neutral." ∧
    spec_sentiment_format (classify 0) 0 = "NEUTRAL (Score: 0.00)" ∧
    analyze_sentiment 0 ≠ spec_sentiment_format (classify 0) 0 := by
  have h1 : analyze_sentiment 0 =
      "POLARITY SCORE: 0.00 (NEUTRAL). Content is neutral." := by
    simp only [analyze_sentiment, fmt2, roundHalfEven]
    norm_num
    decide
  have h2 : spec_sentiment_format (classify 0) 0 = "NEUTRAL (Score: 0.00)" := by
    simp only [spec_sentiment_format, classify, fmt2, roundHalfEven,
      SentimentLabel.render]
    norm_num
    decide
  exact ⟨h1, h2, by rw [h1, h2]; decide⟩

/-- C6 (amended): for every input text, the sentiment scorer's returned
string has the format "POLARITY SCORE: <polarity, 2 decimals>
(<LABEL>). <fixed explanatory sentence>", where LABEL is the three-way
classification of the polarity. -/
theorem analyze_sentiment_format (p : ℚ) :
    (p > 1/10 → analyze_sentiment p =
      "POLARITY SCORE: " ++ fmt2 p ++ " (POSITIVE). Content is generally positive.") ∧
    (p < -(1/10) → analyze_sentiment p =
      "POLARITY SCORE: " ++ fmt2 p ++ " (NEGATIVE). Content is generally negative.") ∧
    (¬(p > 1/10) → ¬(p < -(1/10)) → analyze_sentiment p =
      "POLARITY SCORE: " ++ fmt2 p ++ " (NEUTRAL). Content is neutral.") := by
  have hx : p < -(1/10) → ¬(p > 1/10) := by intro h1 h2; linarith
  refine ⟨?_, ?_, ?_⟩
  · intro h; unfold analyze_sentiment; rw [if_pos h]
  · intro h; unfold analyze_sentiment; rw [if_neg (hx h), if_pos h]
  · intro h1 h2; unfold analyze_sentiment; rw [if_neg h1, if_neg h2]

/-- C6 amended witness at polarity 1/2 (POSITIVE branch). -/
theorem analyze_sentiment_format_witness :
    analyze_sentiment (1/2) =
      "POLARITY SCORE: " ++ fmt2 (1/2) ++ " (POSITIVE). Content is generally positive." :=
  (analyze_sentiment_format (1/2)).1 (by norm_num)

/-- C2: every exception of the search capability — on the primary news
query or on the fallback text query — is caught and converted into the
error string "Critical error in search tool: <e>"; the tool's return
type is `String`, so no exception is ever propagated to the caller. -/
theorem search_errors_to_string (ddgs : DDGSOracle) (query e : String) :
    (ddgs .news (primaryQuery query) = .error e →
      search_news_output ddgs query = "Critical error in search tool: " ++ e) ∧
    (ddgs .news (primaryQuery query) = .ok [] →
      ddgs .text (fallbackQuery query) = .error e →
      search_news_output ddgs query = "Critical error in search tool: " ++ e) := by
  constructor
  · intro h
    simp [search_news_output, search_news_english, h]
  · intro h1 h2
    simp [search_news_output, search_news_english, h1, h2]

/-- C2 witness: an oracle that always raises "boom" yields the error
string on the query "Bitcoin". -/
theorem search_errors_to_string_witness :
    search_news_output (fun _ _ => .error "boom") "Bitcoin" =
      "Critical error in search tool: " ++ "boom" :=
  (search_errors_to_string (fun _ _ => .error "boom") "Bitcoin" "boom").1 rfl

/-- An empty primary result makes the tool issue exactly the two calls
primary-then-fallback, whatever the fallback returns. -/
theorem trace_of_ok_nil (ddgs : DDGSOracle) (query : String)
    (h : ddgs .news (primaryQuery query) = .ok []) :
    search_news_trace ddgs query =
      [(Endpoint.news, primaryQuery query), (Endpoint.text, fallbackQuery query)] := by
  simp only [search_news_trace, search_news_english, h]
  cases htext : ddgs .text (fallbackQuery query) with
  | error e => simp [htext]
  | ok results2 =>
    simp [htext]
    split <;> rfl

/-- A non-empty primary result makes the tool issue only the primary
call. -/
theorem trace_of_ok_cons (ddgs : DDGSOracle) (query : String) (a : Item)
    (l : List Item) (h : ddgs .news (primaryQuery query) = .ok (a :: l)) :
    search_news_trace ddgs query = [(Endpoint.news, primaryQuery query)] := by
  simp [search_news_trace, search_news_english, h]

/-- A primary-call exception makes the tool issue only the primary
call. -/
theorem trace_of_error (ddgs : DDGSOracle) (query : String) (e : String)
    (h : ddgs .news (primaryQuery query) = .error e) :
    search_news_trace ddgs query = [(Endpoint.news, primaryQuery query)] := by
  simp [search_news_trace, search_news_english, h]

/-- C3: the fallback text query is issued iff the primary news query
returns zero results; when issued it carries the topic with " news"
appended, the same region "us-en" and the same cap of 5; with at least
one primary result (or a primary exception) the trace holds only the
primary call. -/
theorem fallback_iff_primary_empty (ddgs : DDGSOracle) (query : String) :
    (∀ results, ddgs .news (primaryQuery query) = .ok results →
      ((Endpoint.text, fallbackQuery query) ∈ search_news_trace ddgs query ↔
        results = [])) ∧
    (∀ results, ddgs .news (primaryQuery query) = .ok results → results ≠ [] →
      search_news_trace ddgs query = [(Endpoint.news, primaryQuery query)]) ∧
    (∀ e, ddgs .news (primaryQuery query) = .error e →
      search_news_trace ddgs query = [(Endpoint.news, primaryQuery query)]) ∧
    (∀ pr, pr ∈ search_news_trace ddgs query → pr.1 = Endpoint.text →
      pr.2 = fallbackQuery query) ∧
    fallbackQuery query = ⟨query ++ " news", "us-en", 5⟩ ∧
    primaryQuery query = ⟨query, "us-en", 5⟩ := by
  refine ⟨?_, ?_, ?_, ?_, rfl, rfl⟩
  · intro results h
    cases results with
    | nil => simp [trace_of_ok_nil ddgs query h]
    | cons a l => simp [trace_of_ok_cons ddgs query a l h]
  · intro results h hne
    cases results with
    | nil => exact absurd rfl hne
    | cons a l => exact trace_of_ok_cons ddgs query a l h
  · intro e h
    exact trace_of_error ddgs query e h
  · intro pr hmem hfst
    cases hnews : ddgs .news (primaryQuery query) with
    | error e =>
      rw [trace_of_error ddgs query e hnews] at hmem
      simp at hmem
      rw [hmem] at hfst
      exact absurd hfst (by simp)
    | ok results =>
      cases results with
      | nil =>
        rw [trace_of_ok_nil ddgs query hnews] at hmem
        simp at hmem
        rcases hmem with h1 | h2
        · rw [h1] at hfst; exact absurd hfst (by simp)
        · rw [h2]
      | cons a l =>
        rw [trace_of_ok_cons ddgs query a l hnews] at hmem
        simp at hmem
        rw [hmem] at hfst
        exact absurd hfst (by simp)

/-- C3 witness: with both queries returning zero results for "Bitcoin",
the fallback call is in the trace. -/
theorem fallback_iff_primary_empty_witness :
    (Endpoint.text, fallbackQuery "Bitcoin") ∈
      search_news_trace (fun _ _ => .ok []) "Bitcoin" :=
  (((fallback_iff_primary_empty (fun _ _ => .ok []) "Bitcoin").1 [] rfl)).mpr rfl

/-- C4: when the primary and the fallback queries both return zero
results, the tool returns the fixed message "No news found.", which is
not the empty string; the tool is a total function into `String`, so it
does not raise. -/
theorem no_results_fixed_message (ddgs : DDGSOracle) (query : String) :
    ddgs .news (primaryQuery query) = .ok [] →
    ddgs .text (fallbackQuery query) = .ok [] →
    search_news_output ddgs query = "No news found." ∧
    search_news_output ddgs query ≠ "" := by
  intro h1 h2
  have h : search_news_output ddgs query = "No news found." := by
    simp [search_news_output, search_news_english, h1, h2]
  exact ⟨h, by rw [h]; decide⟩

/-- C4 witness: an oracle with no results at all on the query
"zzz_no_such_topic_xyz". -/
theorem no_results_fixed_message_witness :
    search_news_output (fun _ _ => .ok []) "zzz_no_such_topic_xyz" =
      "No news found." :=
  (no_results_fixed_message (fun _ _ => .ok []) "zzz_no_such_topic_xyz" rfl rfl).1

/-- The `+=` accumulation is the in-order concatenation of the
formatted lines. -/
theorem foldl_format (l : List Item) (acc : String) :
    l.foldl (fun a i => a ++ format_item i) acc = acc ++ format_results_spec l := by
  induction l generalizing acc with
  | nil => simp [format_results_spec, String.append_empty]
  | cons x xs ih =>
    simp only [List.foldl_cons, format_results_spec, ih, String.append_assoc]

theorem format_results_eq_spec (l : List Item) :
    format_results l = format_results_spec l := by
  unfold format_results
  rw [foldl_format]
  exact String.empty_append _

/-- A render of a newline-free item holds exactly one newline: the
terminator added by the format string. -/
theorem count_nl_format_item (item : Item) (h : item.newlineFree) :
    (format_item item).data.count (Char.ofNat 10) = 1 := by
  obtain ⟨h1, h2, h3, h4⟩ := h
  simp only [format_item, String.data_append, List.count_append]
  rw [List.count_eq_zero_of_not_mem h1, List.count_eq_zero_of_not_mem h2,
    List.count_eq_zero_of_not_mem h3, List.count_eq_zero_of_not_mem h4]
  decide

/-- The concatenated render of newline-free items holds one newline per
item. -/
theorem count_nl_format_results_spec (l : List Item)
    (h : ∀ item ∈ l, item.newlineFree) :
    (format_results_spec l).data.count (Char.ofNat 10) = l.length := by
  induction l with
  | nil => decide
  | cons x xs ih =>
    simp only [format_results_spec, String.data_append, List.count_append,
      List.length_cons]
    rw [count_nl_format_item x (h x (List.mem_cons_self x xs)),
      ih (fun item hm => h item (List.mem_cons_of_mem x hm))]
    omega

/-- C5: on a non-empty primary result list the tool's output is the
in-order concatenation of one formatted line per result, each line
being `- [date] title (source): body` with the `dict.get` defaults for
missing fields; when no rendered field holds a newline, the output
holds exactly n newline-terminated lines. -/
theorem search_news_formats_lines (ddgs : DDGSOracle) (query : String)
    (results : List Item) :
    ddgs .news (primaryQuery query) = .ok results → results ≠ [] →
    search_news_output ddgs query = format_results_spec results ∧
    (∀ item : Item, format_item item =
      "- [" ++ item.date.getD "" ++ "] " ++ item.title.getD "No title" ++
        " (" ++ item.source.getD "Unknown Source" ++ "): " ++
        item.body.getD (item.snippet.getD "") ++ "\n") ∧
    ((∀ item ∈ results, item.newlineFree) →
      (search_news_output ddgs query).data.count (Char.ofNat 10) =
        results.length) := by
  intro hnews hne
  have hout : search_news_output ddgs query = format_results results := by
    cases results with
    | nil => exact absurd rfl hne
    | cons a l => simp [search_news_output, search_news_english, hnews]
  refine ⟨?_, ?_, ?_⟩
  · rw [hout, format_results_eq_spec]
  · intro item
    rfl
  · intro hfree
    rw [hout, format_results_eq_spec]
    exact count_nl_format_results_spec results hfree

/-- C5 witness: a single complete item yields exactly its one formatted
line. -/
theorem search_news_formats_lines_witness :
    search_news_output
        (fun _ _ => .ok [⟨some "T", some "B", none, some "S", some "D"⟩])
        "Bitcoin" =
      format_results_spec [⟨some "T", some "B", none, some "S", some "D"⟩] ∧
    (search_news_output
        (fun _ _ => .ok [⟨some "T", some "B", none, some "S", some "D"⟩])
        "Bitcoin").data.count (Char.ofNat 10) = 1 := by
  have h := search_news_formats_lines
    (fun _ _ => .ok [⟨some "T", some "B", none, some "S", some "D"⟩])
    "Bitcoin" [⟨some "T", some "B", none, some "S", some "D"⟩]
    rfl (by decide)
  exact ⟨h.1, h.2.2 (by decide)⟩

/-- C10: with no `body` field the tool substitutes the `snippet` field
for the body of the formatted line, and with both absent the body
renders as the empty string. -/
theorem body_snippet_fallback (item : Item) :
    (item.body = none → format_item item =
      "- [" ++ item.date.getD "" ++ "] " ++ item.title.getD "No title" ++
        " (" ++ item.source.getD "Unknown Source" ++ "): " ++
        item.snippet.getD "" ++ "\n") ∧
    (item.body = none → item.snippet = none → format_item item =
      "- [" ++ item.date.getD "" ++ "] " ++ item.title.getD "No title" ++
        " (" ++ item.source.getD "Unknown Source" ++ "): " ++ "" ++ "\n") := by
  constructor
  · intro hb
    simp [format_item, hb]
  · intro hb hs
    simp [format_item, hb, hs]

/-- C10 witness: a body-less item with a snippet renders the snippet;
a body-less, snippet-less item renders an empty body. -/
theorem body_snippet_fallback_witness :
    format_item ⟨some "T", none, some "SNIP", some "S", some "D"⟩ =
      "- [" ++ "D" ++ "] " ++ "T" ++ " (" ++ "S" ++ "): " ++ "SNIP" ++ "\n" :=
  (body_snippet_fallback ⟨some "T", none, some "SNIP", some "S", some "D"⟩).1 rfl

/-- C7 counterexample: a response whose first generation carries a
truthy `generation_info` without any `usage_metadata` makes the monitor
print a total of 0 although no token-usage total is found anywhere in
the response, refuting "prints only when that total is found". -/
theorem token_monitor_counterexample :
    found_total ⟨[[⟨some ⟨none, true⟩⟩]]⟩ = none ∧
    on_llm_end ⟨[[⟨some ⟨none, true⟩⟩]]⟩ = some 0 :=
  ⟨rfl, rfl⟩

/-- C7 (amended): the monitor prints a total exactly when the
response's first generation list exists, is non-empty, and its first
generation's `generation_info` is present and truthy; the printed
total is the nested `total_tokens` when found and 0 otherwise; the
hook is a total function, so it never raises and every extraction
failure is silently discarded. -/
theorem token_monitor_amended (r : LLMResult) :
    ((on_llm_end r).isSome = true ↔ ∃ gens g info,
      r.generations.head? = some gens ∧ gens.head? = some g ∧
      g.generation_info = some info ∧ info.isTruthy = true) ∧
    (∀ t, on_llm_end r = some t → t = (found_total r).getD 0) := by
  cases h1 : r.generations.head? with
  | none => simp [on_llm_end, found_total, h1]
  | some gens =>
    cases h2 : gens.head? with
    | none => simp [on_llm_end, found_total, h1, h2]
    | some g =>
      cases h3 : g.generation_info with
      | none => simp [on_llm_end, found_total, h1, h2, h3]
      | some info =>
        by_cases h4 : info.isTruthy
        · constructor
          · constructor
            · intro _
              exact ⟨gens, g, info, rfl, h2, h3, h4⟩
            · intro _
              simp [on_llm_end, h1, h2, h3, h4]
          · intro t ht
            simp only [on_llm_end, h1, h2, h3, h4, if_true,
              Option.some_inj] at ht
            have hgoal : (found_total r).getD 0 =
                ((info.usage_metadata.getD ⟨none⟩).total_tokens).getD 0 := by
              simp only [found_total, h1, h2, h3, Option.some_bind]
              cases info.usage_metadata <;> simp
            rw [hgoal, ht]
        · simp [on_llm_end, found_total, h1, h2, h3, h4]

/-- C7 amended witness: a well-formed response carrying a total of 42
makes the monitor print 42. -/
theorem token_monitor_amended_witness :
    (42 : Nat) =
      (found_total ⟨[[⟨some ⟨some ⟨some 42⟩, false⟩⟩]]⟩).getD 0 :=
  (token_monitor_amended ⟨[[⟨some ⟨some ⟨some 42⟩, false⟩⟩]]⟩).2 42 rfl

/-- C8: an input whose lower-cased form is one of the two exit tokens
makes the loop exit without invoking the executor; any other input is
dispatched as the composite instruction, which embeds the raw topic
between two fixed instruction fragments. -/
theorem exit_dispatch (input : String) :
    (strLower input ∈ exit_tokens → loop_step input = .exit) ∧
    (strLower input ∉ exit_tokens →
      loop_step input = .invoke (prompt_completo input)) ∧
    (∃ pre post, prompt_completo input = pre ++ input ++ post) := by
  refine ⟨?_, ?_,
    "Please, search for the latest news about '",
    "'. Use the 'Search_News' tool first. Then, YOU MUST use the 'Analyze_Sentiment' tool on the content found to get the polarity. Finally, answer me in PORTUGUESE (PT-BR) summarizing the news and stating the sentiment found.",
    rfl⟩
  · intro h
    simp [loop_step, h]
  · intro h
    simp [loop_step, h]

/-- C8 witness: "X" (upper case) exits; "Bitcoin" dispatches. -/
theorem exit_dispatch_witness :
    loop_step "X" = .exit ∧
    loop_step "Bitcoin" = .invoke (prompt_completo "Bitcoin") :=
  ⟨(exit_dispatch "X").1 (by decide),
   (exit_dispatch "Bitcoin").2.1 (by decide)⟩

/-- C9: when the executor's invoke raises on a non-exit turn, the loop
catches the exception, reports it as "Error: <e>", and goes on to
process the remaining inputs — the turn never terminates the
session. -/
theorem turn_error_caught (invoke : ExecutorOracle) (input e : String)
    (rest : List String) :
    strLower input ∉ exit_tokens →
    invoke (prompt_completo input) = .error e →
    main_loop invoke (input :: rest) =
      .errorReported ("Error: " ++ e) :: main_loop invoke rest := by
  intro h1 h2
  simp [main_loop, h1, h2]

/-- C9 witness: an executor that always raises "boom" yields one
reported error for the turn "Bitcoin". -/
theorem turn_error_caught_witness :
    main_loop (fun _ => .error "boom") ["Bitcoin"] =
      [.errorReported ("Error: " ++ "boom")] := by
  rw [turn_error_caught (fun _ => .error "boom") "Bitcoin" "boom" []
    (by decide) rfl]
  rfl

end Agente
